import Mathlib

set_option maxRecDepth 8192

/-!
Verification of the name-validation rules of the semantic-manifest validator
(`dbt_semantic_interfaces/validations/unique_valid_name.py`).

The Python module is shallowly embedded below: its data protocols become Lean
structures, its pure functions become Lean functions, and the one piece of
mutable call-local state (the pairing registry, a Python dict of dicts) becomes
explicit state passing over an association-list model of Python dicts.
-/

/- ---------------------------------------------------------------------------
Data model.  The protocols `SemanticManifest`, `SemanticModel`, and the
reference/context records are imported by the source module; only the fields
the validation rules read are modelled here.
--------------------------------------------------------------------------- -/

/-- `EntityType` from `type_enums`; the validation code only tests `PRIMARY`. -/
inductive EntityType where
  | PRIMARY
  | UNIQUE
  | FOREIGN
  | NATURAL
deriving DecidableEq
/-- A measure of a semantic model (only `name` is read by these rules). -/
structure Measure where
  name : String
deriving DecidableEq
/-- An entity of a semantic model (`name` and `type` are read). -/
structure Entity where
  name : String
  type : EntityType
deriving DecidableEq
/-- A dimension of a semantic model (only `name` is read by these rules). -/
structure Dimension where
  name : String
deriving DecidableEq
/-- A semantic model; `metadata` is the opaque file metadata used only to build
error contexts, modelled as an optional file name. -/
structure SemanticModel where
  name : String
  primary_entity : Option String
  measures : List Measure
  entities : List Entity
  dimensions : List Dimension
  metadata : Option String
deriving DecidableEq
/-- A metric (only `name` and `metadata` are read by these rules). -/
structure Metric where
  name : String
  metadata : Option String
deriving DecidableEq
/-- The manifest root: ordered semantic models and metrics. -/
structure SemanticManifest where
  semantic_models : List SemanticModel
  metrics : List Metric
deriving DecidableEq
/-- `ElementReference`: identity of a semantic-model element, equality by name. -/
structure ElementReference where
  element_name : String
deriving DecidableEq
/-- `SemanticModelElementReference` from `references`. -/
structure SemanticModelElementReference where
  semantic_model_name : String
  element_name : String
deriving DecidableEq
/-- `SemanticModelReference` from `references`. -/
structure SemanticModelReference where
  semantic_model_name : String
deriving DecidableEq
/-- `MetricModelReference` from `references`. -/
structure MetricModelReference where
  metric_name : String
deriving DecidableEq
/-- `SemanticModelElementType` from `validator_helpers`. -/
inductive SemanticModelElementType where
  | MEASURE
  | ENTITY
  | DIMENSION
deriving DecidableEq
/-- `FileContext.from_metadata` wraps the (opaque) metadata of an object. -/
structure FileContext where
  file_name : Option String
deriving DecidableEq
/-- Models `FileContext.from_metadata(metadata=...)`. -/
def FileContext.from_metadata (metadata : Option String) : FileContext :=
  { file_name := metadata }
/-- The three context record types used by this module, as one sum. -/
inductive ValidationContext where
  | SemanticModelElementContext (file_context : FileContext)
      (semantic_model_element : SemanticModelElementReference)
      (element_type : SemanticModelElementType)
  | SemanticModelContext (file_context : FileContext)
      (semantic_model : SemanticModelReference)
  | MetricContext (file_context : FileContext) (metric : MetricModelReference)
deriving DecidableEq
/-- `ValidationError`: every issue produced by this module is an error carrying
an optional context and a message. -/
structure ValidationError where
  context : Option ValidationContext
  message : String
deriving DecidableEq
/-- All issues in this module are `ValidationError`s. -/
abbrev ValidationIssue := ValidationError
/- ---------------------------------------------------------------------------
Python dicts (used for `name_to_type` and `known_pairings`) modelled as
association lists: `get` returns the value of the first matching key,
`set` replaces in place or appends.  Iteration order is never used by the
source, only get/set/membership.
--------------------------------------------------------------------------- -/

/-- A Python dict as an association list. -/
def PyDict (α β : Type) : Type := List (α × β)
/-- The empty dict (`{}`). -/
def PyDict.empty {α β : Type} : PyDict α β := []
/-- `d.get(k)`: value of the first matching key, else `none`. -/
def PyDict.get {α β : Type} [DecidableEq α] : PyDict α β → α → Option β
  | [], _ => none
  | (k1, v) :: rest, k => if k1 = k then some v else PyDict.get rest k
/-- `d[k] = v`: replace the binding of `k` in place, or append it. -/
def PyDict.set {α β : Type} [DecidableEq α] : PyDict α β → α → β → PyDict α β
  | [], k, v => [(k, v)]
  | (k1, v1) :: rest, k, v =>
      if k1 = k then (k, v) :: rest else (k1, v1) :: PyDict.set rest k v
/- ---------------------------------------------------------------------------
Python string case conversion (`str.lower` / `str.upper`, ASCII fragment)
modelled character-wise with the core `Char.toLower` / `Char.toUpper`.
--------------------------------------------------------------------------- -/

/-- Model of Python `str.lower()` (ASCII letters). -/
def strLower (s : String) : String := ⟨s.data.map Char.toLower⟩
/-- Model of Python `str.upper()` (ASCII letters). -/
def strUpper (s : String) : String := ⟨s.data.map Char.toUpper⟩
/- ---------------------------------------------------------------------------
The name regex.  The source compiles

    NAME_REGEX = re.compile(r"\A[a-z]((?!__)[a-z0-9_])*[a-z0-9]\Z")

and tests `NAME_REGEX.match(name)`.  Since the pattern is anchored at both
ends and every alternative consumes exactly one character, a string of length
`n` has exactly one candidate path: the first char against `[a-z]`, chars
`1..n-2` against the starred group, and the final char against `[a-z0-9]`.
The matcher below follows that path; the `(?!__)` lookahead at a starred
position forbids that position and its successor from both being `_`.
--------------------------------------------------------------------------- -/

/-- Matches `((?!__)[a-z0-9_])*[a-z0-9]\Z` against the remaining characters.
A single remaining character must satisfy the final `[a-z0-9]`; with two or
more remaining, the star must take another step: lookahead `(?!__)` on the
next two characters, then one `[a-z0-9_]`. -/
def nameRegexTail : List Char → Bool
  | [] => false
  | [c] => c.isLower || c.isDigit
  | c :: c2 :: rest =>
      !(c == '_' && c2 == '_') && (c.isLower || c.isDigit || c == '_') &&
        nameRegexTail (c2 :: rest)
/-- Model of `UniqueAndValidNameRule.NAME_REGEX.match(name)` (full match of
the doubly-anchored pattern). -/
def nameRegexMatch (name : String) : Bool :=
  match name.data with
  | [] => false
  | c :: rest => c.isLower && nameRegexTail rest
/- ---------------------------------------------------------------------------
Reserved keywords and time granularities.
--------------------------------------------------------------------------- -/

/-- `MetricFlowReservedKeywords`: enumeration of reserved keywords. -/
inductive MetricFlowReservedKeywords where
  | METRIC_TIME
  | MF_INTERNAL_UUID
deriving DecidableEq
/-- The `.value` of each enum member. -/
def MetricFlowReservedKeywords.value : MetricFlowReservedKeywords → String
  | .METRIC_TIME => "metric_time"
  | .MF_INTERNAL_UUID => "mf_internal_uuid"
/-- The set comprehension
`{reserved_name.value for reserved_name in MetricFlowReservedKeywords}`. -/
def MetricFlowReservedKeywords.values : List String :=
  [MetricFlowReservedKeywords.METRIC_TIME.value,
   MetricFlowReservedKeywords.MF_INTERNAL_UUID.value]
/-- Models the enum constructor call `MetricFlowReservedKeywords(s)`, which
raises `ValueError` (here: `none`) when `s` is no member value. -/
def MetricFlowReservedKeywords.fromValue (s : String) :
    Option MetricFlowReservedKeywords :=
  if s = "metric_time" then some MetricFlowReservedKeywords.METRIC_TIME
  else if s = "mf_internal_uuid" then some MetricFlowReservedKeywords.MF_INTERNAL_UUID
  else none
/-- `MetricFlowReservedKeywords.get_reserved_reason`.  The Python `else`
branch calls `assert_values_exhausted`; over this two-member enumeration the
match below is exhaustive, so that branch has no counterpart. -/
def MetricFlowReservedKeywords.get_reserved_reason :
    MetricFlowReservedKeywords → String
  | .METRIC_TIME =>
      "Used as the query input for creating time series metrics from measures with different time dimension names."
  | .MF_INTERNAL_UUID =>
      "Used internally to reference a column that has a uuid generated by MetricFlow."
/-- Modelled from the spec: `TimeGranularity.list_names()` (the
`type_enums.TimeGranularity` module is not part of the given sources).  The
spec names `day` as a granularity keyword and requires that no name equal any
defined time-granularity keyword case-insensitively; the standard calendar
granularities are listed, in upper case as Python enum member names are. -/
def TimeGranularity.list_names : List String :=
  ["DAY", "WEEK", "MONTH", "QUARTER", "YEAR"]
/- ---------------------------------------------------------------------------
`UniqueAndValidNameRule.check_valid_name`.
--------------------------------------------------------------------------- -/

/-- The issue appended when the name fails `NAME_REGEX`.  (The source message
uses an apostrophe in a contraction; it is transliterated here, which no claim
depends on.) -/
def invalid_name_issue (name : String) (context : Option ValidationContext) :
    ValidationError :=
  { context := context,
    message := "Invalid name `" ++ name ++ "` - names may only contain lower case letters, numbers, and underscores. Additionally, names must start with a lower case letter, cannot end with an underscore, cannot contain dunders (double underscores, or __), and must be at least 2 characters long." }
/-- Python `list` rendering of the granularity names used in the message. -/
def time_granularity_names_rendered : String :=
  "[" ++ String.intercalate ", " TimeGranularity.list_names ++ "]"
/-- The issue appended when the upper-cased name is a time-granularity name. -/
def time_granularity_issue (name : String) (context : Option ValidationContext) :
    ValidationError :=
  { context := context,
    message := "Invalid name `" ++ name ++ "` - names cannot match reserved time granularity keywords (" ++ time_granularity_names_rendered ++ ")" }
/-- The issue appended when the lower-cased name is a reserved keyword. -/
def reserved_keyword_issue (name : String) (context : Option ValidationContext)
    (reason : String) : ValidationError :=
  { context := context,
    message := "Invalid name `" ++ name ++ "` - this name is reserved by MetricFlow. Reason: " ++ reason }
/-- `UniqueAndValidNameRule.check_valid_name`, with the one fallible step kept
fallible: constructing `MetricFlowReservedKeywords(name.lower())` would raise
`ValueError` if the membership guard did not hold. -/
def UniqueAndValidNameRule.check_valid_nameE (name : String)
    (context : Option ValidationContext) : Except String (List ValidationIssue) :=
  let issues1 : List ValidationIssue :=
    if nameRegexMatch name then [] else [invalid_name_issue name context]
  let issues2 : List ValidationIssue :=
    if TimeGranularity.list_names.contains (strUpper name) then
      [time_granularity_issue name context]
    else []
  if MetricFlowReservedKeywords.values.contains (strLower name) then
    match MetricFlowReservedKeywords.fromValue (strLower name) with
    | some keyword =>
        Except.ok (issues1 ++ issues2 ++
          [reserved_keyword_issue name context
            (MetricFlowReservedKeywords.get_reserved_reason keyword)])
    | none => Except.error "ValueError: not a valid MetricFlowReservedKeywords"
  else
    Except.ok (issues1 ++ issues2)
/-- The issue list of `check_valid_name`; the error case is proved
unreachable below (claim C9). -/
def UniqueAndValidNameRule.check_valid_name (name : String)
    (context : Option ValidationContext) : List ValidationIssue :=
  match UniqueAndValidNameRule.check_valid_nameE name context with
  | Except.ok issues => issues
  | Except.error _ => []
/- ---------------------------------------------------------------------------
`UniqueAndValidNameRule._validate_semantic_model_elements`.
--------------------------------------------------------------------------- -/

/-- The `element_info_tuples` list: measures first, then entities, then
dimensions, each as `(reference, kind string, context)` in declaration order.
(The Python `if semantic_model.measures:` guards only skip empty sequences,
which mapping over an empty list reproduces.) -/
def SemanticModel.element_info_tuples (semantic_model : SemanticModel) :
    List (ElementReference × String × ValidationContext) :=
  semantic_model.measures.map (fun measure =>
    (⟨measure.name⟩, "measure",
      ValidationContext.SemanticModelElementContext
        (FileContext.from_metadata semantic_model.metadata)
        ⟨semantic_model.name, measure.name⟩
        SemanticModelElementType.MEASURE))
  ++ semantic_model.entities.map (fun entity =>
    (⟨entity.name⟩, "entity",
      ValidationContext.SemanticModelElementContext
        (FileContext.from_metadata semantic_model.metadata)
        ⟨semantic_model.name, entity.name⟩
        SemanticModelElementType.ENTITY))
  ++ semantic_model.dimensions.map (fun dimension =>
    (⟨dimension.name⟩, "dimension",
      ValidationContext.SemanticModelElementContext
        (FileContext.from_metadata semantic_model.metadata)
        ⟨semantic_model.name, dimension.name⟩
        SemanticModelElementType.DIMENSION))
/-- The duplicate-element error.  (Source message transliterated:
contraction written without apostrophe.) -/
def element_dup_error (semantic_model_name : String)
    (context : ValidationContext) (name : ElementReference)
    (ty prev_ty : String) : ValidationError :=
  { context := some context,
    message := "In semantic model `" ++ semantic_model_name
      ++ "`, cannot use name `" ++ name.element_name ++ "` for a " ++ ty
      ++ " when it was already used for a " ++ prev_ty }
/-- The first loop of `_validate_semantic_model_elements`: walk the tuples,
record the kind of each first-seen reference in `name_to_type`, and emit one
error for each later tuple whose reference was already recorded. -/
def elementDupIssuesAux (semantic_model_name : String) :
    List (ElementReference × String × ValidationContext) →
      PyDict ElementReference String → List ValidationIssue
  | [], _ => []
  | (name, ty, context) :: rest, name_to_type =>
      match name_to_type.get name with
      | some prev_ty =>
          element_dup_error semantic_model_name context name ty prev_ty
            :: elementDupIssuesAux semantic_model_name rest name_to_type
      | none => elementDupIssuesAux semantic_model_name rest (name_to_type.set name ty)
/-- The second loop of `_validate_semantic_model_elements`: name validity of
every collected tuple. -/
def elementNameIssues
    (tuples : List (ElementReference × String × ValidationContext)) :
    List ValidationIssue :=
  tuples.flatMap fun t =>
    UniqueAndValidNameRule.check_valid_name t.1.element_name (some t.2.2)
/-- `UniqueAndValidNameRule._validate_semantic_model_elements`. -/
def UniqueAndValidNameRule.validate_semantic_model_elements
    (semantic_model : SemanticModel) : List ValidationIssue :=
  elementDupIssuesAux semantic_model.name semantic_model.element_info_tuples
      PyDict.empty
  ++ elementNameIssues semantic_model.element_info_tuples
/- ---------------------------------------------------------------------------
`UniqueAndValidNameRule._validate_top_level_objects` and `validate_manifest`.
--------------------------------------------------------------------------- -/

/-- The context built for a semantic model in the top-level loop. -/
def semanticModelContext (semantic_model : SemanticModel) : ValidationContext :=
  ValidationContext.SemanticModelContext
    (FileContext.from_metadata semantic_model.metadata)
    ⟨semantic_model.name⟩
/-- The `object_info_tuples` list (semantic models are the only top-level
objects collected). -/
def object_info_tuples (semantic_manifest : SemanticManifest) :
    List (String × String × ValidationContext) :=
  semantic_manifest.semantic_models.map fun semantic_model =>
    (semantic_model.name, "semantic model", semanticModelContext semantic_model)
/-- Name-validity issues emitted while collecting the top-level tuples. -/
def topLevelNameIssues (semantic_manifest : SemanticManifest) :
    List ValidationIssue :=
  semantic_manifest.semantic_models.flatMap fun semantic_model =>
    UniqueAndValidNameRule.check_valid_name semantic_model.name
      (some (semanticModelContext semantic_model))
/-- The duplicate top-level-object error (contraction transliterated). -/
def top_level_dup_error (context : ValidationContext)
    (name ty prev_ty : String) : ValidationError :=
  { context := some context,
    message := "Cannot use name `" ++ name ++ "` for a " ++ ty
      ++ " when it was already used for a " ++ prev_ty }
/-- The duplicate pass over `object_info_tuples` (first-seen-wins over the
`name_to_type` dict, same shape as the element pass). -/
def topLevelDupIssuesAux :
    List (String × String × ValidationContext) → PyDict String String →
      List ValidationIssue
  | [], _ => []
  | (name, ty, context) :: rest, name_to_type =>
      match name_to_type.get name with
      | some prev_ty =>
          top_level_dup_error context name ty prev_ty
            :: topLevelDupIssuesAux rest name_to_type
      | none => topLevelDupIssuesAux rest (name_to_type.set name ty)
/-- The duplicate-metric error (contraction transliterated). -/
def metric_dup_error (context : ValidationContext) (name : String) :
    ValidationError :=
  { context := some context,
    message := "Cannot use name `" ++ name
      ++ "` for a metric when it was already used for a metric" }
/-- The metric loop: per metric, name-validity issues first, then a duplicate
error if the name is already in the `metric_names` set (else the name is
added). -/
def metricIssuesAux : List Metric → List String → List ValidationIssue
  | [], _ => []
  | metric :: rest, metric_names =>
      let metric_context := ValidationContext.MetricContext
        (FileContext.from_metadata metric.metadata) ⟨metric.name⟩
      UniqueAndValidNameRule.check_valid_name metric.name (some metric_context)
      ++ (if metric_names.contains metric.name then
            metric_dup_error metric_context metric.name
              :: metricIssuesAux rest metric_names
          else
            metricIssuesAux rest (metric.name :: metric_names))
/-- `UniqueAndValidNameRule._validate_top_level_objects`. -/
def UniqueAndValidNameRule.validate_top_level_objects
    (semantic_manifest : SemanticManifest) : List ValidationIssue :=
  topLevelNameIssues semantic_manifest
  ++ topLevelDupIssuesAux (object_info_tuples semantic_manifest) PyDict.empty
  ++ metricIssuesAux semantic_manifest.metrics []
/-- `UniqueAndValidNameRule.validate_manifest`: top-level issues, then each
semantic model's element issues in manifest order. -/
def UniqueAndValidNameRule.validate_manifest
    (semantic_manifest : SemanticManifest) : List ValidationIssue :=
  UniqueAndValidNameRule.validate_top_level_objects semantic_manifest
  ++ semantic_manifest.semantic_models.flatMap
      UniqueAndValidNameRule.validate_semantic_model_elements
/- ---------------------------------------------------------------------------
Specification-side characterization of the duplicate pass (claim C3):
first occurrence of a name records its kind, each later element with the same
name produces one error naming its own kind and the recorded first kind.
--------------------------------------------------------------------------- -/

/-- The kind recorded for the first occurrence of reference `r` in `tuples`. -/
def firstSeenKind (tuples : List (ElementReference × String × ValidationContext))
    (r : ElementReference) : Option String :=
  (tuples.find? fun t => t.1 = r).map fun t => t.2.1
/-- Specification rendering of the duplicate pass: walk the tuples keeping the
list of already-walked (`earlier`) tuples; an element whose reference occurs
among the earlier ones yields one error citing its own kind and the kind of
the first earlier occurrence. -/
def elementDupIssuesSpecAux (semantic_model_name : String) :
    List (ElementReference × String × ValidationContext) →
      List (ElementReference × String × ValidationContext) →
        List ValidationIssue
  | _, [] => []
  | earlier, t :: rest =>
      (match firstSeenKind earlier t.1 with
       | some first_kind =>
          [element_dup_error semantic_model_name t.2.2 t.1 t.2.1 first_kind]
       | none => [])
      ++ elementDupIssuesSpecAux semantic_model_name (earlier ++ [t]) rest
/-- Duplicate errors of a tuple list, per the specification reading. -/
def elementDupIssuesSpec (semantic_model_name : String)
    (tuples : List (ElementReference × String × ValidationContext)) :
    List ValidationIssue :=
  elementDupIssuesSpecAux semantic_model_name [] tuples
/-- Two semantic models both named `orders`, with distinct file metadata. -/
def ordersModel1 : SemanticModel :=
  ⟨"orders", none, [], [], [], some "schema1.yml"⟩
/-- Second model named `orders` (its context identifies `schema2.yml`). -/
def ordersModel2 : SemanticModel :=
  ⟨"orders", none, [], [], [], some "schema2.yml"⟩
/-- The claim C7 manifest. -/
def ordersManifest : SemanticManifest := ⟨[ordersModel1, ordersModel2], []⟩
/- ---------------------------------------------------------------------------
`PrimaryEntityDimensionPairs`.  The registry `known_pairings` (a Python dict
of dicts) is threaded explicitly; each helper returns its issues together with
the updated registry.
--------------------------------------------------------------------------- -/

/-- The pairing registry: primary entity name → dimension name → owning model. -/
abbrev KnownPairings := PyDict String (PyDict String String)
/-- Primary-entity resolution of `_check_semantic_model`: the declared
`primary_entity` if not `None`, else the first entity of type `PRIMARY`. -/
def PrimaryEntityDimensionPairs.resolve_primary_entity
    (semantic_model : SemanticModel) : Option String :=
  match semantic_model.primary_entity with
  | some primary_entity => some primary_entity
  | none =>
      (semantic_model.entities.find? fun entity =>
        entity.type = EntityType.PRIMARY).map Entity.name
/-- The duplicate-pairing error. -/
def duplicate_pairing_issue (semantic_model : SemanticModel)
    (primary_entity dimension_name owner : String) : ValidationError :=
  { context := some (ValidationContext.SemanticModelElementContext
      (FileContext.from_metadata semantic_model.metadata)
      ⟨semantic_model.name, dimension_name⟩
      SemanticModelElementType.DIMENSION),
    message := "Duplicate dimension + primary entity pairing detected, dimension + primary entity pairings must be unique. Semantic model `"
      ++ semantic_model.name ++ "` has a primary entity of `" ++ primary_entity
      ++ "` and dimension `" ++ dimension_name
      ++ "`, but this pairing is already in use on semantic model `"
      ++ owner ++ "`." }
/-- The dimension loop of `_check_semantic_model`.  The caller has ensured
`known_pairings` binds `primary_entity` (Python indexes
`known_pairings[primary_entity]` directly), so the inner lookup defaults are
never taken.  When `safe` holds, or the dimension name is not yet registered
under the primary entity, the pairing is registered (`dict` assignment);
otherwise an error naming the registered owner is emitted. -/
def pairingDimensionLoop (semantic_model : SemanticModel)
    (primary_entity : String) (safe : Bool) :
    List Dimension → KnownPairings → List ValidationIssue × KnownPairings
  | [], known_pairings => ([], known_pairings)
  | dimension :: rest, known_pairings =>
      let inner := (known_pairings.get primary_entity).getD PyDict.empty
      if safe || (inner.get dimension.name).isNone then
        pairingDimensionLoop semantic_model primary_entity safe rest
          (known_pairings.set primary_entity
            (inner.set dimension.name semantic_model.name))
      else
        let step := pairingDimensionLoop semantic_model primary_entity safe
          rest known_pairings
        (duplicate_pairing_issue semantic_model primary_entity dimension.name
            ((inner.get dimension.name).getD "") :: step.1,
          step.2)
/-- `PrimaryEntityDimensionPairs._check_semantic_model`: resolve the primary
entity (skipping the model entirely when there is none), create the model's
primary-entity map when absent (setting `safe`), then walk the dimensions. -/
def PrimaryEntityDimensionPairs.check_semantic_model
    (semantic_model : SemanticModel) (known_pairings : KnownPairings) :
    List ValidationIssue × KnownPairings :=
  match PrimaryEntityDimensionPairs.resolve_primary_entity semantic_model with
  | none => ([], known_pairings)
  | some primary_entity =>
      match known_pairings.get primary_entity with
      | none =>
          pairingDimensionLoop semantic_model primary_entity true
            semantic_model.dimensions
            (known_pairings.set primary_entity PyDict.empty)
      | some _ =>
          pairingDimensionLoop semantic_model primary_entity false
            semantic_model.dimensions known_pairings
/-- The manifest loop of `PrimaryEntityDimensionPairs.validate_manifest`. -/
def pairsLoop : List SemanticModel → KnownPairings → List ValidationIssue
  | [], _ => []
  | semantic_model :: rest, known_pairings =>
      let step := PrimaryEntityDimensionPairs.check_semantic_model
        semantic_model known_pairings
      step.1 ++ pairsLoop rest step.2
/-- `PrimaryEntityDimensionPairs.validate_manifest`. -/
def PrimaryEntityDimensionPairs.validate_manifest
    (semantic_manifest : SemanticManifest) : List ValidationIssue :=
  pairsLoop semantic_manifest.semantic_models PyDict.empty
/-- Claim C2 scenario 1: models `a_model` and `b_model`, both with primary
entity `host`, both declaring dimension `created_at`. -/
def hostModelA : SemanticModel :=
  ⟨"a_model", some "host", [], [], [⟨"created_at"⟩], none⟩
/-- Second model with the same (primary entity, dimension) pair. -/
def hostModelB : SemanticModel :=
  ⟨"b_model", some "host", [], [], [⟨"created_at"⟩], none⟩
/-- Claim C2 scenario 2: `b_model` with a different primary entity. -/
def guestModelB : SemanticModel :=
  ⟨"b_model", some "guest", [], [], [⟨"created_at"⟩], none⟩
/-- Manifest whose two models share the (host, created_at) pairing. -/
def samePairManifest : SemanticManifest := ⟨[hostModelA, hostModelB], []⟩
/-- Manifest whose two models pair `created_at` with distinct entities. -/
def distinctPairManifest : SemanticManifest := ⟨[hostModelA, guestModelB], []⟩
/- ---------------------------------------------------------------------------
Claim C1: the rewrite that replaces the `safe` short-circuit by an
unconditional lookup of `known_pairings[primary_entity].get(dimension.name)`.
--------------------------------------------------------------------------- -/

/-- `_check_semantic_model` with the `safe` short-circuit removed: the
dimension loop always performs the lookup (`safe := false` in both branches);
the creation of the empty primary-entity map is kept. -/
def PrimaryEntityDimensionPairs.check_semantic_model_unconditional
    (semantic_model : SemanticModel) (known_pairings : KnownPairings) :
    List ValidationIssue × KnownPairings :=
  match PrimaryEntityDimensionPairs.resolve_primary_entity semantic_model with
  | none => ([], known_pairings)
  | some primary_entity =>
      match known_pairings.get primary_entity with
      | none =>
          pairingDimensionLoop semantic_model primary_entity false
            semantic_model.dimensions
            (known_pairings.set primary_entity PyDict.empty)
      | some _ =>
          pairingDimensionLoop semantic_model primary_entity false
            semantic_model.dimensions known_pairings
/-- The manifest loop over the unconditional-lookup variant. -/
def pairsLoopUnconditional :
    List SemanticModel → KnownPairings → List ValidationIssue
  | [], _ => []
  | semantic_model :: rest, known_pairings =>
      let step := PrimaryEntityDimensionPairs.check_semantic_model_unconditional
        semantic_model known_pairings
      step.1 ++ pairsLoopUnconditional rest step.2
/-- `validate_manifest` over the unconditional-lookup variant. -/
def PrimaryEntityDimensionPairs.validate_manifest_unconditional
    (semantic_manifest : SemanticManifest) : List ValidationIssue :=
  pairsLoopUnconditional semantic_manifest.semantic_models PyDict.empty
/-- A model that declares the same dimension name twice under a fresh primary
entity: the `safe` short-circuit registers both occurrences silently, the
unconditional lookup reports the second as a duplicate of the first. -/
def selfDupModel : SemanticModel :=
  ⟨"m", some "p", [], [], [⟨"d"⟩, ⟨"d"⟩], none⟩
/-- The manifest refuting claim C1 as stated. -/
def selfDupManifest : SemanticManifest := ⟨[selfDupModel], []⟩
/- ---------------------------------------------------------------------------
Claim C10: the validators read the manifest but never write to it.  The
Python entry points receive the manifest object by reference; the source
assigns only to the call-local `issues`, `name_to_type`, `metric_names` and
`known_pairings` structures, never to a manifest, model, or element field.
To make that frame property statable in a pure embedding, the state-threaded
versions below pass the manifest through every step exactly as the call graph
passes the reference (alongside the genuinely mutated call-local registry)
and return the manifest that is left behind.
--------------------------------------------------------------------------- -/

/-- One `_check_semantic_model` step with the manifest threaded alongside the
registry it mutates. -/
def check_semantic_model_st (semantic_model : SemanticModel) :
    SemanticManifest × KnownPairings →
      List ValidationIssue × (SemanticManifest × KnownPairings) :=
  fun st =>
    let step := PrimaryEntityDimensionPairs.check_semantic_model
      semantic_model st.2
    (step.1, (st.1, step.2))
/-- The pairing manifest loop with the manifest threaded through. -/
def pairsLoopSt : List SemanticModel → SemanticManifest × KnownPairings →
    List ValidationIssue × (SemanticManifest × KnownPairings)
  | [], st => ([], st)
  | semantic_model :: rest, st =>
      let step := check_semantic_model_st semantic_model st
      let stepRest := pairsLoopSt rest step.2
      (step.1 ++ stepRest.1, stepRest.2)
/-- `PrimaryEntityDimensionPairs.validate_manifest`, returning also the
manifest it leaves behind. -/
def PrimaryEntityDimensionPairs.validate_manifest_st
    (semantic_manifest : SemanticManifest) :
    List ValidationIssue × SemanticManifest :=
  let step := pairsLoopSt semantic_manifest.semantic_models
    (semantic_manifest, PyDict.empty)
  (step.1, step.2.1)
/-- The per-model element loop of `UniqueAndValidNameRule.validate_manifest`
with the manifest threaded through. -/
def uvLoopSt : List SemanticModel → SemanticManifest →
    List ValidationIssue × SemanticManifest
  | [], semantic_manifest => ([], semantic_manifest)
  | semantic_model :: rest, semantic_manifest =>
      let issues := UniqueAndValidNameRule.validate_semantic_model_elements
        semantic_model
      let stepRest := uvLoopSt rest semantic_manifest
      (issues ++ stepRest.1, stepRest.2)
/-- `UniqueAndValidNameRule.validate_manifest`, returning also the manifest
it leaves behind. -/
def UniqueAndValidNameRule.validate_manifest_st
    (semantic_manifest : SemanticManifest) :
    List ValidationIssue × SemanticManifest :=
  let top := UniqueAndValidNameRule.validate_top_level_objects semantic_manifest
  let step := uvLoopSt semantic_manifest.semantic_models semantic_manifest
  (top ++ step.1, step.2)

theorem PyDict.get_empty {α β : Type} [DecidableEq α] (k : α) :
    (PyDict.empty : PyDict α β).get k = none := rfl
theorem PyDict.get_set_self {α β : Type} [DecidableEq α]
    (d : PyDict α β) (k : α) (v : β) : (d.set k v).get k = some v := by
  induction d with
  | nil => simp [PyDict.set, PyDict.get]
  | cons h t ih =>
      obtain ⟨k1, v1⟩ := h
      by_cases hk : k1 = k
      · simp [PyDict.set, hk, PyDict.get]
      · simp [PyDict.set, hk, PyDict.get, ih]
theorem PyDict.get_set_ne {α β : Type} [DecidableEq α]
    (d : PyDict α β) (k k2 : α) (v : β) (h : k ≠ k2) :
    (d.set k v).get k2 = d.get k2 := by
  induction d with
  | nil => simp [PyDict.set, PyDict.get, h]
  | cons hd t ih =>
      obtain ⟨k1, v1⟩ := hd
      by_cases hk : k1 = k
      · subst hk
        simp [PyDict.set, PyDict.get, h]
      · simp [PyDict.set, hk, PyDict.get, ih]
theorem char_toNat_ofNat_of_lt (n : Nat) (h : n < 0xD800) :
    (Char.ofNat n).toNat = n := by
  rw [Char.ofNat, dif_pos (Or.inl h)]
  rfl
/-- Upper-casing after lower-casing agrees with direct upper-casing. -/
theorem char_toUpper_toLower (c : Char) : c.toLower.toUpper = c.toUpper := by
  unfold Char.toLower Char.toUpper
  by_cases h : c.toNat ≥ 65 ∧ c.toNat ≤ 90
  · rw [if_pos h]
    have hval : (Char.ofNat (c.toNat + 32)).toNat = c.toNat + 32 :=
      char_toNat_ofNat_of_lt _ (by omega)
    rw [hval, if_pos (by omega), if_neg (by omega)]
    have : c.toNat + 32 - 32 = c.toNat := by omega
    rw [this, Char.ofNat_toNat]
  · rw [if_neg h]
theorem strUpper_strLower (s : String) : strUpper (strLower s) = strUpper s := by
  unfold strUpper strLower
  simp only [List.map_map]
  exact congrArg String.mk
    (List.map_congr_left fun c _ => char_toUpper_toLower c)
/- ---------------------------------------------------------------------------
Facts about `check_valid_name`.
--------------------------------------------------------------------------- -/
theorem reserved_values_mem_iff (s : String) :
    s ∈ MetricFlowReservedKeywords.values ↔
      s = "metric_time" ∨ s = "mf_internal_uuid" := by
  simp [MetricFlowReservedKeywords.values, MetricFlowReservedKeywords.value]
theorem fromValue_eq_none {s : String}
    (h : s ∉ MetricFlowReservedKeywords.values) :
    MetricFlowReservedKeywords.fromValue s = none := by
  rw [reserved_values_mem_iff] at h
  push_neg at h
  simp [MetricFlowReservedKeywords.fromValue, h.1, h.2]
theorem check_valid_name_eq (name : String) (ctx : Option ValidationContext) :
    UniqueAndValidNameRule.check_valid_name name ctx =
      (if nameRegexMatch name then [] else [invalid_name_issue name ctx])
      ++ (if TimeGranularity.list_names.contains (strUpper name) then
            [time_granularity_issue name ctx] else [])
      ++ (match MetricFlowReservedKeywords.fromValue (strLower name) with
          | some keyword =>
              [reserved_keyword_issue name ctx
                (MetricFlowReservedKeywords.get_reserved_reason keyword)]
          | none => []) := by
  by_cases h1 : strLower name = "metric_time"
  · simp [UniqueAndValidNameRule.check_valid_name,
      UniqueAndValidNameRule.check_valid_nameE, h1,
      MetricFlowReservedKeywords.fromValue, MetricFlowReservedKeywords.values,
      MetricFlowReservedKeywords.value]
  · by_cases h2 : strLower name = "mf_internal_uuid"
    · simp [UniqueAndValidNameRule.check_valid_name,
        UniqueAndValidNameRule.check_valid_nameE, h2,
        MetricFlowReservedKeywords.fromValue, MetricFlowReservedKeywords.values,
        MetricFlowReservedKeywords.value]
    · simp [UniqueAndValidNameRule.check_valid_name,
        UniqueAndValidNameRule.check_valid_nameE, h1, h2,
        MetricFlowReservedKeywords.fromValue, MetricFlowReservedKeywords.values,
        MetricFlowReservedKeywords.value]
theorem check_valid_nameE_eq_ok (name : String) (ctx : Option ValidationContext) :
    UniqueAndValidNameRule.check_valid_nameE name ctx =
      Except.ok (UniqueAndValidNameRule.check_valid_name name ctx) := by
  by_cases h1 : strLower name = "metric_time"
  · simp [UniqueAndValidNameRule.check_valid_name,
      UniqueAndValidNameRule.check_valid_nameE, h1,
      MetricFlowReservedKeywords.fromValue, MetricFlowReservedKeywords.values,
      MetricFlowReservedKeywords.value]
  · by_cases h2 : strLower name = "mf_internal_uuid"
    · simp [UniqueAndValidNameRule.check_valid_name,
        UniqueAndValidNameRule.check_valid_nameE, h2,
        MetricFlowReservedKeywords.fromValue, MetricFlowReservedKeywords.values,
        MetricFlowReservedKeywords.value]
    · simp [UniqueAndValidNameRule.check_valid_name,
        UniqueAndValidNameRule.check_valid_nameE, h1, h2,
        MetricFlowReservedKeywords.fromValue, MetricFlowReservedKeywords.values,
        MetricFlowReservedKeywords.value]
theorem firstSeenKind_append (l1 l2 : List (ElementReference × String × ValidationContext))
    (r : ElementReference) :
    firstSeenKind (l1 ++ l2) r =
      (match firstSeenKind l1 r with
       | some k => some k
       | none => firstSeenKind l2 r) := by
  induction l1 with
  | nil => simp [firstSeenKind]
  | cons a l ih =>
      by_cases ha : a.1 = r
      · simp [firstSeenKind, List.find?_cons_of_pos, ha]
      · have h1 : firstSeenKind ((a :: l) ++ l2) r = firstSeenKind (l ++ l2) r := by
          simp only [List.cons_append, firstSeenKind]
          rw [List.find?_cons_of_neg]
          simpa using ha
        have h2 : firstSeenKind (a :: l) r = firstSeenKind l r := by
          simp only [firstSeenKind]
          rw [List.find?_cons_of_neg]
          simpa using ha
        rw [h1, h2, ih]
theorem firstSeenKind_singleton (t : ElementReference × String × ValidationContext)
    (r : ElementReference) :
    firstSeenKind [t] r = if t.1 = r then some t.2.1 else none := by
  by_cases h : t.1 = r <;> simp [firstSeenKind, List.find?, h]
/-- The implementation pass agrees with the specification pass whenever the
dict state agrees with the already-walked prefix. -/
theorem elementDupIssuesAux_eq_spec (semantic_model_name : String) :
    ∀ (tuples earlier : List (ElementReference × String × ValidationContext))
      (d : PyDict ElementReference String),
      (∀ r, d.get r = firstSeenKind earlier r) →
      elementDupIssuesAux semantic_model_name tuples d =
        elementDupIssuesSpecAux semantic_model_name earlier tuples := by
  intro tuples
  induction tuples with
  | nil => intro earlier d _; rfl
  | cons t rest ih =>
      intro earlier d hinv
      obtain ⟨r, k, c⟩ := t
      cases hfind : firstSeenKind earlier r with
      | some k0 =>
          have hd : d.get r = some k0 := by rw [hinv, hfind]
          rw [elementDupIssuesAux, hd, elementDupIssuesSpecAux, hfind]
          simp only [List.singleton_append, List.cons.injEq, true_and]
          exact ih (earlier ++ [(r, k, c)]) d (by
            intro r2
            rw [firstSeenKind_append]
            cases h2 : firstSeenKind earlier r2 with
            | some k2 => rw [hinv, h2]
            | none =>
                rw [firstSeenKind_singleton]
                have hne : ¬((r, k, c).1 = r2) := by
                  intro he
                  simp only at he
                  subst he
                  rw [hfind] at h2
                  exact Option.noConfusion h2
                rw [if_neg hne, hinv, h2])
      | none =>
          have hd : d.get r = none := by rw [hinv, hfind]
          rw [elementDupIssuesAux, hd, elementDupIssuesSpecAux, hfind]
          simp only [List.nil_append]
          exact ih (earlier ++ [(r, k, c)]) (d.set r k) (by
            intro r2
            rw [firstSeenKind_append]
            by_cases he : r = r2
            · subst he
              rw [PyDict.get_set_self, hfind, firstSeenKind_singleton]
              simp
            · rw [PyDict.get_set_ne _ _ _ _ he]
              cases h2 : firstSeenKind earlier r2 with
              | some k2 => rw [hinv, h2]
              | none =>
                  rw [firstSeenKind_singleton, if_neg (by simpa using he), hinv, h2])
/-- Claim C4: every name matching the anchored name regex that is neither a
time-granularity keyword (case-insensitively, via upper-casing) nor a reserved
keyword (case-insensitively, via lower-casing) yields an empty issue list from
`check_valid_name`. -/
theorem C4_valid_names_yield_no_issues (name : String)
    (ctx : Option ValidationContext)
    (h1 : nameRegexMatch name = true)
    (h2 : strUpper name ∉ TimeGranularity.list_names)
    (h3 : strLower name ∉ MetricFlowReservedKeywords.values) :
    UniqueAndValidNameRule.check_valid_name name ctx = [] := by
  rw [check_valid_name_eq, fromValue_eq_none h3]
  simp [h1, h2]
/-- Witness for C4 at the concrete name `orders`. -/
theorem C4_valid_names_yield_no_issues_witness :
    nameRegexMatch "orders" = true
    ∧ strUpper "orders" ∉ TimeGranularity.list_names
    ∧ strLower "orders" ∉ MetricFlowReservedKeywords.values
    ∧ UniqueAndValidNameRule.check_valid_name "orders" none = [] :=
  ⟨by decide, by decide, by decide,
    C4_valid_names_yield_no_issues "orders" none (by decide) (by decide) (by decide)⟩
/-- Claim C5: `check_valid_name "day"` returns the reserved
time-granularity-keyword issue; any case variant of `day` also receives it
(on top of a possible syntax issue, which does not remove it); `metric_time`
and `mf_internal_uuid` and all their case variants receive exactly one
reserved-keyword issue carrying the keyword-specific justification, which is
appended verbatim to the message. -/
theorem C5_reserved_names_flagged :
    (UniqueAndValidNameRule.check_valid_name "day" none =
      [time_granularity_issue "day" none])
    ∧ (∀ s ctx, strLower s = "day" →
        UniqueAndValidNameRule.check_valid_name s ctx =
          (if nameRegexMatch s then [] else [invalid_name_issue s ctx])
            ++ [time_granularity_issue s ctx])
    ∧ (∀ s ctx, strLower s = "metric_time" →
        UniqueAndValidNameRule.check_valid_name s ctx =
          (if nameRegexMatch s then [] else [invalid_name_issue s ctx])
            ++ [reserved_keyword_issue s ctx
                  (MetricFlowReservedKeywords.get_reserved_reason
                    MetricFlowReservedKeywords.METRIC_TIME)])
    ∧ (∀ s ctx, strLower s = "mf_internal_uuid" →
        UniqueAndValidNameRule.check_valid_name s ctx =
          (if nameRegexMatch s then [] else [invalid_name_issue s ctx])
            ++ [reserved_keyword_issue s ctx
                  (MetricFlowReservedKeywords.get_reserved_reason
                    MetricFlowReservedKeywords.MF_INTERNAL_UUID)])
    ∧ (∀ name ctx reason, (reserved_keyword_issue name ctx reason).message =
        "Invalid name `" ++ name
          ++ "` - this name is reserved by MetricFlow. Reason: " ++ reason) := by
  refine ⟨by decide, ?_, ?_, ?_, fun name ctx reason => rfl⟩
  · intro s ctx h
    have hu : strUpper s = "DAY" := by
      rw [← strUpper_strLower, h]
      decide
    have hg : TimeGranularity.list_names.contains "DAY" = true := rfl
    have hf : MetricFlowReservedKeywords.fromValue "day" = none := rfl
    rw [check_valid_name_eq, h, hu, hg, hf]
    simp
  · intro s ctx h
    have hu : strUpper s = "METRIC_TIME" := by
      rw [← strUpper_strLower, h]
      decide
    have hg : TimeGranularity.list_names.contains "METRIC_TIME" = false := rfl
    have hf : MetricFlowReservedKeywords.fromValue "metric_time" =
        some MetricFlowReservedKeywords.METRIC_TIME := rfl
    rw [check_valid_name_eq, h, hu, hg, hf]
    simp
  · intro s ctx h
    have hu : strUpper s = "MF_INTERNAL_UUID" := by
      rw [← strUpper_strLower, h]
      decide
    have hg : TimeGranularity.list_names.contains "MF_INTERNAL_UUID" = false := rfl
    have hf : MetricFlowReservedKeywords.fromValue "mf_internal_uuid" =
        some MetricFlowReservedKeywords.MF_INTERNAL_UUID := rfl
    rw [check_valid_name_eq, h, hu, hg, hf]
    simp
/-- Witness for C5 at the case variant `Metric_Time`. -/
theorem C5_reserved_names_flagged_witness :
    strLower "Metric_Time" = "metric_time"
    ∧ UniqueAndValidNameRule.check_valid_name "Metric_Time" none =
        [invalid_name_issue "Metric_Time" none,
         reserved_keyword_issue "Metric_Time" none
           (MetricFlowReservedKeywords.get_reserved_reason
             MetricFlowReservedKeywords.METRIC_TIME)] := by
  constructor
  · decide
  · have h := C5_reserved_names_flagged.2.2.1 "Metric_Time" none (by decide)
    rw [h]
    simp [show nameRegexMatch "Metric_Time" = false by decide]
/-- Claim C6: each of the four syntactically invalid names receives exactly
the single regex syntax-error issue. -/
theorem C6_syntax_error_examples :
    UniqueAndValidNameRule.check_valid_name "A_bad" none =
      [invalid_name_issue "A_bad" none]
    ∧ UniqueAndValidNameRule.check_valid_name "bad_" none =
      [invalid_name_issue "bad_" none]
    ∧ UniqueAndValidNameRule.check_valid_name "ba__d" none =
      [invalid_name_issue "ba__d" none]
    ∧ UniqueAndValidNameRule.check_valid_name "b" none =
      [invalid_name_issue "b" none] :=
  ⟨by decide, by decide, by decide, by decide⟩
/-- Claim C9: `check_valid_name` is total: the fallible embedding
`check_valid_nameE` (whose error case models the `ValueError` that
`MetricFlowReservedKeywords(name.lower())` would raise if unguarded, and whose
reserved branch uses the exhaustive `get_reserved_reason`) succeeds on every
input string with exactly the issues `check_valid_name` returns. -/
theorem C9_check_valid_name_never_fails (name : String)
    (ctx : Option ValidationContext) :
    UniqueAndValidNameRule.check_valid_nameE name ctx =
      Except.ok (UniqueAndValidNameRule.check_valid_name name ctx) :=
  check_valid_nameE_eq_ok name ctx
/-- Claim C3: element collection walks measures, then entities, then
dimensions in declaration order; the duplicate pass has first-seen-wins
semantics (the first occurrence of a name records its kind, each later
occurrence yields one error naming its own kind and the recorded first kind);
and a model with a measure `x` and a dimension `x` yields exactly one
duplicate error, citing the dimension against the measure. -/
theorem C3_element_uniqueness_first_seen_wins :
    (∀ semantic_model : SemanticModel,
      semantic_model.element_info_tuples.map (fun t => t.2.1) =
        List.replicate semantic_model.measures.length "measure"
        ++ List.replicate semantic_model.entities.length "entity"
        ++ List.replicate semantic_model.dimensions.length "dimension")
    ∧ (∀ semantic_model : SemanticModel,
      UniqueAndValidNameRule.validate_semantic_model_elements semantic_model =
        elementDupIssuesSpec semantic_model.name
            semantic_model.element_info_tuples
          ++ elementNameIssues semantic_model.element_info_tuples)
    ∧ (∀ (x : String) (md : Option String),
      elementDupIssuesAux "model_a"
          (SemanticModel.element_info_tuples
            ⟨"model_a", none, [⟨x⟩], [], [⟨x⟩], md⟩)
          PyDict.empty =
        [element_dup_error "model_a"
          (ValidationContext.SemanticModelElementContext
            (FileContext.from_metadata md) ⟨"model_a", x⟩
            SemanticModelElementType.DIMENSION)
          ⟨x⟩ "dimension" "measure"]) := by
  refine ⟨?_, ?_, ?_⟩
  · intro m
    simp [SemanticModel.element_info_tuples, List.map_map, Function.comp_def,
      List.map_const']
  · intro m
    rw [UniqueAndValidNameRule.validate_semantic_model_elements,
      elementDupIssuesAux_eq_spec m.name m.element_info_tuples [] PyDict.empty
        (fun r => rfl)]
    rfl
  · intro x md
    simp [SemanticModel.element_info_tuples, elementDupIssuesAux,
      PyDict.empty, PyDict.get, PyDict.set, element_dup_error]
/-- Claim C7: a manifest with exactly two semantic models both named `orders`
and no other named elements yields exactly one issue from
`UniqueAndValidNameRule.validate_manifest`: the duplicate-name error, whose
context is the second model's context (distinct from the first's). -/
theorem C7_duplicate_model_names :
    UniqueAndValidNameRule.validate_manifest ordersManifest =
      [top_level_dup_error (semanticModelContext ordersModel2) "orders"
        "semantic model" "semantic model"]
    ∧ semanticModelContext ordersModel2 ≠ semanticModelContext ordersModel1 :=
  ⟨by decide, by decide⟩
/-- Claim C2: two models that both resolve to primary entity `host` and both
declare dimension `created_at` produce exactly one duplicate-pairing error,
whose message names both models; two models with distinct resolved primary
entities and the same dimension produce no error. -/
theorem C2_duplicate_pairing_scenarios :
    PrimaryEntityDimensionPairs.validate_manifest samePairManifest =
      [duplicate_pairing_issue hostModelB "host" "created_at" "a_model"]
    ∧ (∃ s1 s2 s3,
        (duplicate_pairing_issue hostModelB "host" "created_at" "a_model").message
          = s1 ++ "b_model" ++ s2 ++ "a_model" ++ s3)
    ∧ PrimaryEntityDimensionPairs.validate_manifest distinctPairManifest = [] := by
  refine ⟨by decide, ⟨"Duplicate dimension + primary entity pairing detected, dimension + primary entity pairings must be unique. Semantic model `", "` has a primary entity of `host` and dimension `created_at`, but this pairing is already in use on semantic model `", "`.", by decide⟩, by decide⟩
/-- Claim C8: primary-entity resolution uses the declared `primary_entity`
when present, else the first declared entity of type `PRIMARY`; a model which
resolves to neither contributes no issues and leaves the registry untouched. -/
theorem C8_primary_entity_resolution (m : SemanticModel) (kp : KnownPairings) :
    (∀ e, m.primary_entity = some e →
      PrimaryEntityDimensionPairs.resolve_primary_entity m = some e)
    ∧ (m.primary_entity = none →
      ∀ pre ent post, m.entities = pre ++ ent :: post →
        ent.type = EntityType.PRIMARY →
        (∀ x ∈ pre, x.type ≠ EntityType.PRIMARY) →
        PrimaryEntityDimensionPairs.resolve_primary_entity m = some ent.name)
    ∧ (m.primary_entity = none →
      (∀ x ∈ m.entities, x.type ≠ EntityType.PRIMARY) →
      PrimaryEntityDimensionPairs.resolve_primary_entity m = none)
    ∧ (PrimaryEntityDimensionPairs.resolve_primary_entity m = none →
      PrimaryEntityDimensionPairs.check_semantic_model m kp = ([], kp)) := by
  refine ⟨?_, ?_, ?_, ?_⟩
  · intro e h
    simp [PrimaryEntityDimensionPairs.resolve_primary_entity, h]
  · intro h pre ent post hsplit hty hpre
    simp only [PrimaryEntityDimensionPairs.resolve_primary_entity, h, hsplit]
    rw [List.find?_append]
    have h1 : (pre.find? fun entity => entity.type = EntityType.PRIMARY) = none := by
      rw [List.find?_eq_none]
      intro x hx
      simpa using hpre x hx
    rw [h1, List.find?_cons_of_pos _ (by simpa using hty)]
    simp
  · intro h hall
    simp only [PrimaryEntityDimensionPairs.resolve_primary_entity, h]
    have h1 : (m.entities.find? fun entity => entity.type = EntityType.PRIMARY) = none := by
      rw [List.find?_eq_none]
      intro x hx
      simpa using hall x hx
    rw [h1]
    rfl
  · intro h
    simp [PrimaryEntityDimensionPairs.check_semantic_model, h]
/-- Witness for C8: resolution falls through to the first `PRIMARY`-typed
entity, and a model with no resolvable primary entity is skipped. -/
theorem C8_primary_entity_resolution_witness :
    PrimaryEntityDimensionPairs.resolve_primary_entity
      ⟨"m0", none, [], [⟨"e1", EntityType.FOREIGN⟩, ⟨"e2", EntityType.PRIMARY⟩], [], none⟩
      = some "e2"
    ∧ PrimaryEntityDimensionPairs.check_semantic_model
        ⟨"m1", none, [], [], [⟨"d"⟩], none⟩ PyDict.empty = ([], PyDict.empty) :=
  ⟨(C8_primary_entity_resolution
      ⟨"m0", none, [], [⟨"e1", EntityType.FOREIGN⟩, ⟨"e2", EntityType.PRIMARY⟩], [], none⟩
      PyDict.empty).2.1 rfl
      [⟨"e1", EntityType.FOREIGN⟩] ⟨"e2", EntityType.PRIMARY⟩ [] rfl rfl (by decide),
   (C8_primary_entity_resolution ⟨"m1", none, [], [], [⟨"d"⟩], none⟩
      PyDict.empty).2.2.2 (by decide)⟩
/-- While the dimension names still to be walked are unregistered under the
primary entity and pairwise distinct, `safe := true` and `safe := false`
behave identically. -/
theorem pairingDimensionLoop_true_eq_false (semantic_model : SemanticModel)
    (primary_entity : String) :
    ∀ (dims : List Dimension) (kp : KnownPairings) (inner : PyDict String String),
      kp.get primary_entity = some inner →
      (∀ d ∈ dims, inner.get d.name = none) →
      (dims.map Dimension.name).Nodup →
      pairingDimensionLoop semantic_model primary_entity true dims kp =
        pairingDimensionLoop semantic_model primary_entity false dims kp := by
  intro dims
  induction dims with
  | nil => intro kp inner _ _ _; rfl
  | cons d rest ih =>
      intro kp inner hget hnone hnodup
      have hnodup2 : (d.name ∉ rest.map Dimension.name)
          ∧ (rest.map Dimension.name).Nodup := by
        rw [List.map_cons, List.nodup_cons] at hnodup
        exact hnodup
      have hd : inner.get d.name = none := hnone d (List.mem_cons_self d rest)
      simp only [pairingDimensionLoop, hget, Option.getD_some, hd,
        Option.isNone_none, Bool.true_or, Bool.false_or, if_true]
      exact ih (kp.set primary_entity (inner.set d.name semantic_model.name))
        (inner.set d.name semantic_model.name)
        (PyDict.get_set_self _ _ _)
        (fun d2 hd2 => by
          have hne : d.name ≠ d2.name := by
            intro he
            exact hnodup2.1 (he ▸ List.mem_map_of_mem Dimension.name hd2)
          rw [PyDict.get_set_ne _ _ _ _ hne]
          exact hnone d2 (List.mem_cons_of_mem d hd2))
        hnodup2.2
/-- With pairwise-distinct dimension names, one model step of the original
rule equals the unconditional-lookup variant. -/
theorem check_semantic_model_eq_unconditional (semantic_model : SemanticModel)
    (kp : KnownPairings)
    (h : (semantic_model.dimensions.map Dimension.name).Nodup) :
    PrimaryEntityDimensionPairs.check_semantic_model semantic_model kp =
      PrimaryEntityDimensionPairs.check_semantic_model_unconditional
        semantic_model kp := by
  unfold PrimaryEntityDimensionPairs.check_semantic_model
    PrimaryEntityDimensionPairs.check_semantic_model_unconditional
  cases hres : PrimaryEntityDimensionPairs.resolve_primary_entity semantic_model with
  | none => rfl
  | some primary_entity =>
      show (match kp.get primary_entity with
            | none => pairingDimensionLoop semantic_model primary_entity true
                semantic_model.dimensions (kp.set primary_entity PyDict.empty)
            | some _ => pairingDimensionLoop semantic_model primary_entity false
                semantic_model.dimensions kp) =
          (match kp.get primary_entity with
            | none => pairingDimensionLoop semantic_model primary_entity false
                semantic_model.dimensions (kp.set primary_entity PyDict.empty)
            | some _ => pairingDimensionLoop semantic_model primary_entity false
                semantic_model.dimensions kp)
      cases hget : kp.get primary_entity with
      | some inner => rfl
      | none =>
          exact pairingDimensionLoop_true_eq_false semantic_model primary_entity
            semantic_model.dimensions (kp.set primary_entity PyDict.empty)
            PyDict.empty (PyDict.get_set_self _ _ _) (fun d _ => rfl) h
/-- Manifest-level equivalence under distinct dimension names per model. -/
theorem pairsLoop_eq_unconditional :
    ∀ (models : List SemanticModel) (kp : KnownPairings),
      (∀ m ∈ models, (m.dimensions.map Dimension.name).Nodup) →
      pairsLoop models kp = pairsLoopUnconditional models kp := by
  intro models
  induction models with
  | nil => intro kp _; rfl
  | cons m rest ih =>
      intro kp hall
      rw [pairsLoop, pairsLoopUnconditional,
        check_semantic_model_eq_unconditional m kp
          (hall m (List.mem_cons_self m rest)),
        ih _ (fun m2 h2 => hall m2 (List.mem_cons_of_mem m h2))]
/-- Counterexample to claim C1 as stated: on `selfDupManifest` the original
rule and the unconditional-lookup rewrite return different issue sequences,
so the `safe` flag is not a pure optimization over all manifests. -/
theorem C1_safe_flag_counterexample :
    PrimaryEntityDimensionPairs.validate_manifest selfDupManifest = []
    ∧ PrimaryEntityDimensionPairs.validate_manifest_unconditional selfDupManifest
        = [duplicate_pairing_issue selfDupModel "p" "d" "m"]
    ∧ PrimaryEntityDimensionPairs.validate_manifest selfDupManifest ≠
        PrimaryEntityDimensionPairs.validate_manifest_unconditional selfDupManifest :=
  ⟨by decide, by decide, by decide⟩
/-- Claim C1 as amended: for every manifest in which no semantic model
declares the same dimension name twice, replacing the `safe` short-circuit by
the unconditional lookup yields exactly the same sequence of validation
issues from `PrimaryEntityDimensionPairs.validate_manifest`. -/
theorem C1_safe_flag_equivalence (semantic_manifest : SemanticManifest)
    (h : ∀ m ∈ semantic_manifest.semantic_models,
      (m.dimensions.map Dimension.name).Nodup) :
    PrimaryEntityDimensionPairs.validate_manifest semantic_manifest =
      PrimaryEntityDimensionPairs.validate_manifest_unconditional
        semantic_manifest :=
  pairsLoop_eq_unconditional semantic_manifest.semantic_models PyDict.empty h
/-- Witness for the amended claim C1 on a concrete two-model manifest with
distinct dimension names (including a genuine cross-model duplicate pair). -/
theorem C1_safe_flag_equivalence_witness :
    (∀ m ∈ (⟨[⟨"w1", some "p", [], [], [⟨"a"⟩, ⟨"b"⟩], none⟩,
              ⟨"w2", some "p", [], [], [⟨"a"⟩], none⟩], []⟩ :
        SemanticManifest).semantic_models,
      (m.dimensions.map Dimension.name).Nodup)
    ∧ PrimaryEntityDimensionPairs.validate_manifest
        ⟨[⟨"w1", some "p", [], [], [⟨"a"⟩, ⟨"b"⟩], none⟩,
          ⟨"w2", some "p", [], [], [⟨"a"⟩], none⟩], []⟩ =
      PrimaryEntityDimensionPairs.validate_manifest_unconditional
        ⟨[⟨"w1", some "p", [], [], [⟨"a"⟩, ⟨"b"⟩], none⟩,
          ⟨"w2", some "p", [], [], [⟨"a"⟩], none⟩], []⟩ :=
  ⟨by decide, C1_safe_flag_equivalence _ (by decide)⟩
theorem pairsLoopSt_eq :
    ∀ (models : List SemanticModel) (mf : SemanticManifest) (kp : KnownPairings),
      (pairsLoopSt models (mf, kp)).1 = pairsLoop models kp
      ∧ (pairsLoopSt models (mf, kp)).2.1 = mf := by
  intro models
  induction models with
  | nil => intro mf kp; exact ⟨rfl, rfl⟩
  | cons m rest ih =>
      intro mf kp
      have h := ih mf
        (PrimaryEntityDimensionPairs.check_semantic_model m kp).2
      exact ⟨by simp [pairsLoopSt, pairsLoop, check_semantic_model_st, h.1],
        by simp [pairsLoopSt, check_semantic_model_st, h.2]⟩
theorem uvLoopSt_eq :
    ∀ (models : List SemanticModel) (mf : SemanticManifest),
      uvLoopSt models mf =
        (models.flatMap UniqueAndValidNameRule.validate_semantic_model_elements,
          mf) := by
  intro models
  induction models with
  | nil => intro mf; rfl
  | cons m rest ih => intro mf; simp [uvLoopSt, ih mf]
/-- Claim C10: both validators leave the manifest exactly as they found it
while producing exactly the issues of the pure entry points: validation only
reads the manifest, all writes hit call-local state. -/
theorem C10_validation_leaves_manifest_unchanged (mf : SemanticManifest) :
    UniqueAndValidNameRule.validate_manifest_st mf =
      (UniqueAndValidNameRule.validate_manifest mf, mf)
    ∧ PrimaryEntityDimensionPairs.validate_manifest_st mf =
      (PrimaryEntityDimensionPairs.validate_manifest mf, mf) := by
  constructor
  · rw [UniqueAndValidNameRule.validate_manifest_st,
      UniqueAndValidNameRule.validate_manifest, uvLoopSt_eq]
  · have h := pairsLoopSt_eq mf.semantic_models mf PyDict.empty
    rw [PrimaryEntityDimensionPairs.validate_manifest_st,
      PrimaryEntityDimensionPairs.validate_manifest]
    exact Prod.ext h.1 h.2
